import Mathlib

/-!
Verification of the period-selection state machine of the AFKPI dashboard
(the app-logic file: module state, week/month selector, timeline slider,
page reload dispatch).  The JavaScript is embedded shallowly: the mutable
module variables and the widget state they read and write become one record,
every event handler becomes a state-transition function, and the
asynchronous fetches become explicit outcome parameters.  JS numbers that
can be null, undefined or NaN are modelled as Option Int (none for all
three invalid shapes); page reloads and user-visible alerts are counted.
-/

namespace AFKPI

/-! ## JavaScript string/number primitives -/

/-- The decimal digit character for d (JS renders integers in base 10,
digit d becomes the character with code 48 + d). -/
def decDigitChar (d : Nat) : Char := Char.ofNat (48 + d)

/-- Decimal digit characters of n, most significant first, peeling the last
digit off each step.  The first argument is structural fuel; every use
supplies fuel ≥ n, so the fuel-exhausted branch is never reached. -/
def natToCharsAux : Nat → Nat → List Char
  | _, 0 => []
  | 0, _ + 1 => []
  | fuel + 1, n + 1 =>
    natToCharsAux fuel ((n + 1) / 10) ++ [decDigitChar ((n + 1) % 10)]

/-- Decimal rendering of a natural number, as JS Number.prototype.toString
produces for a nonnegative integer. -/
def natToChars (n : Nat) : List Char :=
  if n = 0 then [decDigitChar 0] else natToCharsAux n n

/-- JS string rendering of an integer value (sign, then base-10 digits);
this is what an integer becomes when assigned to a DOM string property. -/
def jsIntToString (i : Int) : String :=
  if i < 0 then String.mk ('-' :: natToChars (-i).toNat)
  else String.mk (natToChars i.toNat)

/-- Numeric value of a big-endian list of decimal digit characters. -/
def digitsVal (cs : List Char) : Nat :=
  cs.foldl (fun a c => a * 10 + (c.toNat - 48)) 0

/-- Value of the longest decimal-digit prefix of a character list, or none
when there is no leading digit. -/
def parseDigitsPrefix (cs : List Char) : Option Nat :=
  if cs.takeWhile Char.isDigit = [] then none
  else some (digitsVal (cs.takeWhile Char.isDigit))

/-- Model of JavaScript parseInt in its radix-10 path: skip leading
whitespace, read an optional sign, then the longest prefix of decimal
digits; none models NaN (no digit found).  The 0x hexadecimal prefix of
parseInt is not modelled: every value this code parses originates from
base-10 integer rendering or comma-joins of such renderings. -/
def jsParseInt (s : String) : Option Int :=
  match s.toList.dropWhile Char.isWhitespace with
  | [] => none
  | c :: cs =>
    if c = '-' then (parseDigitsPrefix cs).map (fun n => -(n : Int))
    else if c = '+' then (parseDigitsPrefix cs).map (fun n => (n : Int))
    else (parseDigitsPrefix (c :: cs)).map (fun n => (n : Int))

/-- Auxiliary for jsSplitComma; acc holds the running field's characters in
reverse order. -/
def splitCommaAux : List Char → List Char → List String
  | [], acc => [String.mk acc.reverse]
  | c :: cs, acc =>
    if c = ',' then String.mk acc.reverse :: splitCommaAux cs []
    else splitCommaAux cs (c :: acc)

/-- Model of JavaScript String.prototype.split(',') : the fields between
commas, in order; the empty string splits to a single empty field. -/
def jsSplitComma (s : String) : List String := splitCommaAux s.toList []

/-- Model of JavaScript Array.prototype.join(',') . -/
def jsJoinComma : List String → String
  | [] => ""
  | [x] => x
  | x :: xs => x ++ "," ++ jsJoinComma xs

/-! ## Data model -/

/-- One reporting week as served by GET /api/weeks (fields week_id and
label). -/
structure Period where
  week_id : Int
  label : String
deriving Repr, DecidableEq

/-- One month group as served by GET /api/weeks/months (fields label and
week_ids). -/
structure MonthGroup where
  label : String
  week_ids : List Int
deriving Repr, DecidableEq

/-- One option element of the selector dropdown: its value attribute and its
display text. -/
structure SelectOption where
  value : String
  text : String
deriving Repr, DecidableEq

/-- The week-selector select element: its option list and the index of the
selected option (none models selectedIndex = -1, i.e. nothing selected). -/
structure Dropdown where
  options : List SelectOption
  selectedIndex : Option Nat
deriving Repr, DecidableEq

/-- Reading selector.value: the selected option's value attribute, or the
empty string when no option is selected. -/
def Dropdown.value (d : Dropdown) : String :=
  match d.selectedIndex with
  | none => ""
  | some i =>
    match d.options.get? i with
    | some o => o.value
    | none => ""

/-- Writing selector.value = v on a select element: selects the first option
whose value is v, or clears the selection when no option matches. -/
def Dropdown.setValue (d : Dropdown) (v : String) : Dropdown :=
  { d with selectedIndex := d.options.findIdx? (fun o => o.value == v) }

/-- The timeline range input: min, max and current value. -/
structure Slider where
  min : Int
  max : Int
  value : Int
deriving Repr, DecidableEq

/-- The module-level mutable state of the app-logic file, together with the
widget state it reads and writes.  currentJobFilter and the DOM pieces with
no role in period selection (user-name text, granularity button classes,
tables, charts, the loading spinner) are not modelled; triggered page
reloads and user-visible error alerts are counted instead of performed. -/
structure AppState where
  currentWeekId : Option Int
  weeksData : List Period
  periodType : String
  monthsData : List MonthGroup
  currentMonthWeekIds : List (Option Int)
  selector : Dropdown
  slider : Slider
  timelineStart : String
  timelineEnd : String
  timelineCurrent : String
  reloads : Nat
  errors : Nat
deriving Repr, DecidableEq

/-- The SelectionState of the data model: the selection-relevant projection
of the module state (granularity, primary week, current group, slider
position as reverse index). -/
structure SelectionState where
  granularity : String
  currentWeekId : Option Int
  currentGroupWeekIds : List (Option Int)
  sliderIndex : Int
deriving Repr, DecidableEq

/-- Projection of the full state onto the SelectionState. -/
def AppState.selection (s : AppState) : SelectionState :=
  SelectionState.mk s.periodType s.currentWeekId s.currentMonthWeekIds
    s.slider.value

/-! ## Operations -/

/-- reloadCurrentPage dispatches one page-specific data load for the current
route; the loaders only read the selection state and render, so the dispatch
is modelled as counting one reload. -/
def reloadCurrentPage (s : AppState) : AppState :=
  { s with reloads := s.reloads + 1 }

/-- showError surfaces one synchronous user-visible alert. -/
def showError (s : AppState) : AppState :=
  { s with errors := s.errors + 1 }

/-- populateWeekSelector: clears the dropdown and appends one option per
week (value week_id, text label); the option at index 0 is marked selected
and its week becomes the current single-week selection.  With an empty
weeksData the forEach body never runs, so the selection variables are left
untouched and the dropdown is left empty. -/
def populateWeekSelector (s : AppState) : AppState :=
  let opts := s.weeksData.map
    (fun w => SelectOption.mk (jsIntToString w.week_id) w.label)
  match s.weeksData with
  | [] => { s with selector := Dropdown.mk opts none }
  | w :: _ =>
    { s with
      selector := Dropdown.mk opts (some 0),
      currentWeekId := some w.week_id,
      currentMonthWeekIds := [some w.week_id] }

/-- populateMonthSelector: clears the dropdown and appends one option per
month group (value the comma-join of its week ids, text its label); the
option at index 0 is marked selected, its week_ids become the current group
and its first week id (undefined, i.e. none, when the group is empty)
becomes the primary week.  With an empty monthsData the selection variables
are left untouched. -/
def populateMonthSelector (s : AppState) : AppState :=
  let opts := s.monthsData.map
    (fun m => SelectOption.mk (jsJoinComma (m.week_ids.map jsIntToString))
      m.label)
  match s.monthsData with
  | [] => { s with selector := Dropdown.mk opts none }
  | m :: _ =>
    { s with
      selector := Dropdown.mk opts (some 0),
      currentMonthWeekIds := m.week_ids.map some,
      currentWeekId := m.week_ids.head? }

/-- setPeriodType: records the granularity, repopulates the dropdown from
the matching list (the weekly/monthly button class toggles are presentation
only and not modelled), and reloads the current page.  The timeline slider
is not touched. -/
def setPeriodType (t : String) (s : AppState) : AppState :=
  let s1 := { s with periodType := t }
  let s2 := if t = "weekly" then populateWeekSelector s1
    else populateMonthSelector s1
  reloadCurrentPage s2

/-- updateSliderLabels: start label shows the most recent week, end label
the oldest; the current label shows the week at the slider's position, or
the dashes placeholder when that index is out of range or the week's label
is the empty string (falsy in JS). -/
def updateSliderLabels (s : AppState) : AppState :=
  match s.weeksData with
  | [] => s
  | w :: rest =>
    let currentIdx := s.slider.value
    let wk := if 0 ≤ currentIdx then (w :: rest).get? currentIdx.toNat
      else none
    { s with
      timelineStart := w.label,
      timelineEnd := ((w :: rest).getLast (List.cons_ne_nil w rest)).label,
      timelineCurrent :=
        match wk with
        | some x => if x.label = "" then "--" else x.label
        | none => "--" }

/-- initTimelineSlider: a no-op when weeksData is empty (or the slider
element is absent); otherwise sets the reversed range (0 = most recent,
max = oldest), position 0, and the labels.  Registering the input listener
has no state effect. -/
def initTimelineSlider (s : AppState) : AppState :=
  if s.weeksData.length = 0 then s
  else
    updateSliderLabels
      { s with slider := Slider.mk 0 ((s.weeksData.length : Int) - 1) 0 }

/-- handleSliderChange: parses the event target's value; when it is a valid
reverse index, pins the selection to that single week (also in monthly
mode), mirrors the week id into the dropdown, updates the current label and
reloads the page.  Otherwise (NaN or out of range) nothing happens. -/
def handleSliderChange (v : String) (s : AppState) : AppState :=
  match jsParseInt v with
  | none => s
  | some idx =>
    if h : 0 ≤ idx ∧ idx.toNat < s.weeksData.length then
      let week := s.weeksData.get ⟨idx.toNat, h.2⟩
      reloadCurrentPage
        { s with
          currentWeekId := some week.week_id,
          currentMonthWeekIds := [some week.week_id],
          selector := s.selector.setValue (jsIntToString week.week_id),
          timelineCurrent := week.label }
    else s

/-- A user scrub of the timeline slider to position i: the browser first
sets the range input's value, then fires the input event whose target value
is that position. -/
def selectBySlider (i : Int) (s : AppState) : AppState :=
  handleSliderChange (jsIntToString i)
    { s with slider := Slider.mk s.slider.min s.slider.max i }

/-- handlePeriodChange: reads the dropdown's value.  Weekly: parseInt it
(NaN modelled none), pin the group to that single parse result, and resync
the slider and its current label when the parsed id occurs in weeksData
(findIndex compares with strict equality, which never matches NaN).
Monthly: split the value on commas and parseInt each field; the first entry
becomes the primary week.  Finally reload the current page. -/
def handlePeriodChange (s : AppState) : AppState :=
  let s1 :=
    if s.periodType = "weekly" then
      let cw := jsParseInt s.selector.value
      let s2 := { s with currentWeekId := cw, currentMonthWeekIds := [cw] }
      match s.weeksData.findIdx?
          (fun w => (some w.week_id : Option Int) == cw) with
      | none => s2
      | some idx =>
        match s.weeksData.get? idx with
        | none => s2
        | some wk =>
          { s2 with
            slider := Slider.mk s2.slider.min s2.slider.max (idx : Int),
            timelineCurrent := wk.label }
    else
      let ids := (jsSplitComma s.selector.value).map jsParseInt
      { s with
        currentMonthWeekIds := ids,
        currentWeekId :=
          match ids with
          | x :: _ => x
          | [] => none }
  reloadCurrentPage s1

/-- A user choice of value v in the dropdown: the browser updates the select
element's value (selecting the matching option, or clearing the selection
when none matches), then fires the change event handler. -/
def selectByDropdown (v : String) (s : AppState) : AppState :=
  handlePeriodChange { s with selector := s.selector.setValue v }

/-- loadWeeks: Promise.all of the weeks fetch and the months fetch; the
assignments to weeksData and monthsData happen only when both fetches
succeed, otherwise the whole call fails before any state is written.  On
success the dropdown is populated for the current granularity and the
timeline slider is initialised (the change-listener registration has no
state effect). -/
def loadWeeks (weeksRes : Except Unit (List Period))
    (monthsRes : Except Unit (List MonthGroup)) (s : AppState) :
    Except Unit AppState :=
  match weeksRes, monthsRes with
  | Except.ok weeks, Except.ok months =>
    let s1 := { s with weeksData := weeks, monthsData := months }
    let s2 := if s1.periodType = "weekly" then populateWeekSelector s1
      else populateMonthSelector s1
    Except.ok (initTimelineSlider s2)
  | Except.error e, _ => Except.error e
  | _, Except.error e => Except.error e

/-- loadDashboardData: fetches the page's KPI data (four concurrent calls,
collapsed here to one combined outcome) and renders it; it never writes the
selection state, and its internal try/catch shows one error on failure. -/
def loadDashboardData (dashRes : Except Unit Unit) (s : AppState) :
    AppState :=
  match dashRes with
  | Except.ok _ => s
  | Except.error _ => showError s

/-- initDashboard: loadWeeks then loadDashboardData inside one try/catch; a
loadWeeks failure skips the data load and surfaces exactly one alert, with
the state as it was before the call. -/
def initDashboard (weeksRes : Except Unit (List Period))
    (monthsRes : Except Unit (List MonthGroup))
    (dashRes : Except Unit Unit) (s : AppState) : AppState :=
  match loadWeeks weeksRes monthsRes s with
  | Except.error _ => showError s
  | Except.ok s1 => loadDashboardData dashRes s1

/-! ## Concrete states used to evaluate the theorems -/

/-- Two reporting weeks, most recent first (the scenario of the testable
properties). -/
def sampleWeeks : List Period := [Period.mk 5 "2025-W51", Period.mk 4 "2025-W50"]

/-- One month group holding three weeks, most recent first. -/
def sampleMonths : List MonthGroup := [MonthGroup.mk "Dec 2025" [5, 4, 3]]

/-- A populated weekly dashboard state: dropdown filled from sampleWeeks with
the most recent week selected, slider initialised over both weeks. -/
def sampleState : AppState :=
  AppState.mk (some 5) sampleWeeks "weekly" sampleMonths [some 5]
    (Dropdown.mk
      [SelectOption.mk "5" "2025-W51", SelectOption.mk "4" "2025-W50"]
      (some 0))
    (Slider.mk 0 1 0) "2025-W51" "2025-W50" "2025-W51" 0 0

/-- The pristine state of a fresh page load: nothing selected, no data. -/
def emptyState : AppState :=
  AppState.mk none [] "weekly" [] [] (Dropdown.mk [] none) (Slider.mk 0 0 0)
    "" "" "" 0 0

/-- sampleState with the dropdown's selection cleared, as the select element
ends up after an attempted write of a value no option carries. -/
def badValueState : AppState :=
  { sampleState with selector := Dropdown.mk sampleState.selector.options none }

/-! ## Helper lemmas: decimal rendering and parsing round-trip -/

/-- The ten decimal digit characters are digits. -/
theorem decDigitChar_isDigit {d : Nat} (h : d < 10) :
    (decDigitChar d).isDigit = true := by
  interval_cases d <;> decide

/-- Code point of a decimal digit character. -/
theorem decDigitChar_toNat {d : Nat} (h : d < 10) :
    (decDigitChar d).toNat = 48 + d := by
  interval_cases d <;> decide

/-- A digit character is not a comma. -/
theorem isDigit_ne_comma {c : Char} (h : c.isDigit = true) : c ≠ ',' := by
  intro he
  subst he
  simp [Char.isDigit] at h

/-- A digit character is not whitespace. -/
theorem isDigit_not_isWhitespace {c : Char} (h : c.isDigit = true) :
    c.isWhitespace = false := by
  have hb : 48 ≤ c.toNat ∧ c.toNat ≤ 57 := by
    simp [Char.isDigit, Char.le_def] at h
    exact h
  have h32 : ¬(c = ' ') := fun he => by subst he; revert hb; decide
  have h9 : ¬(c = '\t') := fun he => by subst he; revert hb; decide
  have h13 : ¬(c = '\x0d') := fun he => by subst he; revert hb; decide
  have h10 : ¬(c = '\n') := fun he => by subst he; revert hb; decide
  simp [Char.isWhitespace, h32, h9, h13, h10]

/-- A digit character is not a minus sign. -/
theorem isDigit_ne_minus {c : Char} (h : c.isDigit = true) : c ≠ '-' := by
  intro he
  subst he
  simp [Char.isDigit] at h

/-- A digit character is not a plus sign. -/
theorem isDigit_ne_plus {c : Char} (h : c.isDigit = true) : c ≠ '+' := by
  intro he
  subst he
  simp [Char.isDigit] at h

/-- Every character the fuelled digit renderer emits is a digit. -/
theorem natToCharsAux_digits :
    ∀ fuel n, ∀ c ∈ natToCharsAux fuel n, c.isDigit = true := by
  intro fuel
  induction fuel with
  | zero =>
    intro n c hc
    cases n <;> simp [natToCharsAux] at hc
  | succ fuel ih =>
    intro n c hc
    cases n with
    | zero => simp [natToCharsAux] at hc
    | succ m =>
      rw [natToCharsAux] at hc
      rcases List.mem_append.mp hc with h | h
      · exact ih _ _ h
      · rw [List.mem_singleton] at h
        subst h
        exact decDigitChar_isDigit (Nat.mod_lt _ (by omega))

/-- Every character of the decimal rendering of a natural number is a
digit. -/
theorem natToChars_digits (n : Nat) : ∀ c ∈ natToChars n, c.isDigit = true := by
  unfold natToChars
  split
  · intro c hc
    rw [List.mem_singleton] at hc
    subst hc
    exact decDigitChar_isDigit (by omega)
  · exact natToCharsAux_digits n n

/-- The fuelled digit renderer emits at least one character on a positive
input with sufficient fuel. -/
theorem natToCharsAux_ne_nil {fuel n : Nat} (h1 : 1 ≤ n) (h2 : n ≤ fuel) :
    natToCharsAux fuel n ≠ [] := by
  cases fuel with
  | zero => omega
  | succ f =>
    cases n with
    | zero => omega
    | succ m =>
      rw [natToCharsAux]
      simp

/-- The decimal rendering of a natural number is never empty. -/
theorem natToChars_ne_nil (n : Nat) : natToChars n ≠ [] := by
  unfold natToChars
  split
  · simp
  · exact natToCharsAux_ne_nil (by omega) (le_refl n)

/-- Folding one more digit onto a digit-value accumulator. -/
theorem digitsVal_append_singleton (cs : List Char) (c : Char) :
    digitsVal (cs ++ [c]) = digitsVal cs * 10 + (c.toNat - 48) := by
  simp [digitsVal, List.foldl_append]

/-- The digit value of the fuelled rendering recovers the number. -/
theorem digitsVal_natToCharsAux :
    ∀ fuel n, n ≤ fuel → digitsVal (natToCharsAux fuel n) = n := by
  intro fuel
  induction fuel with
  | zero =>
    intro n h
    interval_cases n
    simp [natToCharsAux, digitsVal]
  | succ fuel ih =>
    intro n h
    cases n with
    | zero => simp [natToCharsAux, digitsVal]
    | succ m =>
      have hd : (m + 1) / 10 < m + 1 := Nat.div_lt_self (by omega) (by omega)
      rw [natToCharsAux, digitsVal_append_singleton, ih ((m + 1) / 10) (by omega),
        decDigitChar_toNat (Nat.mod_lt _ (by omega))]
      omega

/-- The digit value of the decimal rendering recovers the number. -/
theorem digitsVal_natToChars (n : Nat) : digitsVal (natToChars n) = n := by
  unfold natToChars
  split
  · subst_vars
    decide
  · exact digitsVal_natToCharsAux n n (le_refl n)

/-- A list all of whose elements satisfy p is untouched by takeWhile p. -/
theorem takeWhile_eq_self_of_all {α : Type} {p : α → Bool} :
    ∀ l : List α, (∀ c ∈ l, p c = true) → l.takeWhile p = l := by
  intro l
  induction l with
  | nil => simp
  | cons c t ih =>
    intro h
    rw [List.takeWhile_cons, h c (by simp), ih (fun x hx => h x (by simp [hx]))]
    simp

/-- On an all-digit list the digit-prefix parser returns the full value. -/
theorem parseDigitsPrefix_all_digits {cs : List Char} (hne : cs ≠ [])
    (h : ∀ c ∈ cs, c.isDigit = true) :
    parseDigitsPrefix cs = some (digitsVal cs) := by
  unfold parseDigitsPrefix
  rw [takeWhile_eq_self_of_all cs h]
  simp [hne]

/-- Parsing an all-digit string yields its digit value. -/
theorem jsParseInt_mk_digits {l : List Char} (hne : l ≠ [])
    (h : ∀ c ∈ l, c.isDigit = true) :
    jsParseInt (String.mk l) = some ((digitsVal l : Int)) := by
  obtain ⟨c, t, hct⟩ := List.exists_cons_of_ne_nil hne
  subst hct
  have hc := h c (by simp)
  have htl : (String.mk (c :: t)).toList = c :: t := rfl
  unfold jsParseInt
  rw [htl, List.dropWhile_cons, isDigit_not_isWhitespace hc]
  simp only [Bool.false_eq_true, if_false]
  rw [if_neg (isDigit_ne_minus hc), if_neg (isDigit_ne_plus hc),
    parseDigitsPrefix_all_digits (by simp) h]
  rfl

/-- Round trip: parseInt recovers the integer that was rendered into the
dropdown or slider value. -/
theorem jsParseInt_jsIntToString (i : Int) :
    jsParseInt (jsIntToString i) = some i := by
  unfold jsIntToString
  split
  · rename_i hneg
    have hw : ('-').isWhitespace = false := by decide
    have htl : (String.mk ('-' :: natToChars (-i).toNat)).toList
        = '-' :: natToChars (-i).toNat := rfl
    unfold jsParseInt
    rw [htl, List.dropWhile_cons, hw]
    simp only [Bool.false_eq_true, if_false, if_true, ite_true]
    rw [parseDigitsPrefix_all_digits (natToChars_ne_nil _) (natToChars_digits _)]
    simp [digitsVal_natToChars]
    omega
  · rename_i hpos
    rw [jsParseInt_mk_digits (natToChars_ne_nil _) (natToChars_digits _),
      digitsVal_natToChars]
    congr 1
    omega

/-- The rendering of an integer never contains a comma, so comma-joins of
week ids split back into the original fields. -/
theorem jsIntToString_no_comma (i : Int) :
    ∀ c ∈ (jsIntToString i).toList, c ≠ ',' := by
  unfold jsIntToString
  split <;> intro c hc
  · have htl : (String.mk ('-' :: natToChars (-i).toNat)).toList
        = '-' :: natToChars (-i).toNat := rfl
    rw [htl] at hc
    rcases List.mem_cons.mp hc with h | h
    · subst h
      decide
    · exact isDigit_ne_comma (natToChars_digits _ _ h)
  · exact isDigit_ne_comma (natToChars_digits _ _ hc)

/-! ## Helper lemmas: comma split and join -/

/-- The comma splitter always produces at least one field. -/
theorem splitCommaAux_ne_nil : ∀ cs acc, splitCommaAux cs acc ≠ [] := by
  intro cs
  induction cs with
  | nil =>
    intro acc
    simp [splitCommaAux]
  | cons c t ih =>
    intro acc
    rw [splitCommaAux]
    split
    · simp
    · exact ih _

/-- Splitting any string produces at least one field (as in JS, where even
the empty string splits to one empty field). -/
theorem jsSplitComma_ne_nil (s : String) : jsSplitComma s ≠ [] :=
  splitCommaAux_ne_nil s.toList []

/-- A comma-free character list is one single field. -/
theorem splitCommaAux_no_comma :
    ∀ cs acc, (∀ c ∈ cs, c ≠ ',') →
      splitCommaAux cs acc = [String.mk (acc.reverse ++ cs)] := by
  intro cs
  induction cs with
  | nil =>
    intro acc h
    simp [splitCommaAux]
  | cons c t ih =>
    intro acc h
    rw [splitCommaAux, if_neg (h c (by simp)),
      ih (c :: acc) (fun x hx => h x (by simp [hx]))]
    simp

/-- Splitting a list that starts with a comma-free field followed by a comma
peels off exactly that field. -/
theorem splitCommaAux_append :
    ∀ cs rest acc, (∀ c ∈ cs, c ≠ ',') →
      splitCommaAux (cs ++ ',' :: rest) acc =
        String.mk (acc.reverse ++ cs) :: splitCommaAux rest [] := by
  intro cs
  induction cs with
  | nil =>
    intro rest acc h
    rw [List.nil_append, splitCommaAux, if_pos rfl]
    simp
  | cons c t ih =>
    intro rest acc h
    rw [List.cons_append, splitCommaAux, if_neg (h c (by simp)),
      ih rest (c :: acc) (fun x hx => h x (by simp [hx]))]
    simp

/-- Rebuilding a string from its character list. -/
theorem stringMk_toList (s : String) : String.mk s.toList = s := rfl

/-- Round trip: splitting a comma-join of comma-free fields recovers the
fields (the week-id lists stored in the monthly dropdown options). -/
theorem jsSplitComma_jsJoinComma :
    ∀ l : List String, l ≠ [] → (∀ x ∈ l, ∀ c ∈ x.toList, c ≠ ',') →
      jsSplitComma (jsJoinComma l) = l := by
  intro l
  induction l with
  | nil =>
    intro h
    exact absurd rfl h
  | cons x t ih =>
    intro _ h
    cases t with
    | nil =>
      show jsSplitComma (jsJoinComma [x]) = [x]
      unfold jsJoinComma jsSplitComma
      rw [splitCommaAux_no_comma x.toList [] (h x (by simp))]
      simp [stringMk_toList]
    | cons y u =>
      show jsSplitComma (jsJoinComma (x :: y :: u)) = x :: y :: u
      have hj : jsJoinComma (x :: y :: u) = x ++ "," ++ jsJoinComma (y :: u) := by
        rw [jsJoinComma]
        intro hh
        exact List.noConfusion hh
      have htl : (x ++ "," ++ jsJoinComma (y :: u)).toList
          = x.toList ++ ',' :: (jsJoinComma (y :: u)).toList := by
        simp [String.toList, String.data_append]
      unfold jsSplitComma
      rw [hj, htl, splitCommaAux_append x.toList _ [] (h x (by simp))]
      simp only [List.reverse_nil, List.nil_append, stringMk_toList]
      have := ih (List.cons_ne_nil y u) (fun z hz => h z (by simp [hz]))
      unfold jsSplitComma at this
      rw [this]

/-! ## Helper lemmas: dropdown writes and the change handler -/

/-- Writing a value that some option carries selects a matching option, so
reading the value back yields exactly the written value. -/
theorem Dropdown.setValue_value {d : Dropdown} {v : String}
    (h : ∃ o ∈ d.options, o.value = v) : (d.setValue v).value = v := by
  have hex : ∃ o ∈ d.options, (fun o => o.value == v) o = true := by
    obtain ⟨o, ho, hv⟩ := h
    exact ⟨o, ho, by simp [hv]⟩
  have hfind := List.findIdx?_eq_some_of_exists hex
  have hlt := List.findIdx_lt_length_of_exists hex
  have hp := @List.findIdx_getElem _ (fun o => o.value == v) d.options hlt
  unfold Dropdown.setValue Dropdown.value
  simp only [hfind, List.get?_eq_get hlt]
  simpa using hp

/-- Writing the same value to the dropdown twice is the same write: the
options are unchanged, so the same option index is found. -/
theorem Dropdown.setValue_setValue (d : Dropdown) (v : String) :
    (d.setValue v).setValue v = d.setValue v := rfl

/-- The reverse index handlePeriodChange's weekly branch finds for the
parsed dropdown value (findIndex over weeksData on week_id, strict equality
never matching NaN). -/
def weeklyFindIdx (s : AppState) : Option Nat :=
  s.weeksData.findIdx?
    (fun w => (some w.week_id : Option Int) == jsParseInt s.selector.value)

/-- The change handler never touches the granularity. -/
theorem handlePeriodChange_periodType (s : AppState) :
    (handlePeriodChange s).periodType = s.periodType := by
  simp only [handlePeriodChange, reloadCurrentPage]
  split
  · split
    · rfl
    · split <;> rfl
  · rfl

/-- The change handler never touches the dropdown itself. -/
theorem handlePeriodChange_selector (s : AppState) :
    (handlePeriodChange s).selector = s.selector := by
  simp only [handlePeriodChange, reloadCurrentPage]
  split
  · split
    · rfl
    · split <;> rfl
  · rfl

/-- The change handler never touches the week list. -/
theorem handlePeriodChange_weeksData (s : AppState) :
    (handlePeriodChange s).weeksData = s.weeksData := by
  simp only [handlePeriodChange, reloadCurrentPage]
  split
  · split
    · rfl
    · split <;> rfl
  · rfl

/-- The change handler never touches the month list. -/
theorem handlePeriodChange_monthsData (s : AppState) :
    (handlePeriodChange s).monthsData = s.monthsData := by
  simp only [handlePeriodChange, reloadCurrentPage]
  split
  · split
    · rfl
    · split <;> rfl
  · rfl

/-- The change handler triggers exactly one page reload. -/
theorem handlePeriodChange_reloads (s : AppState) :
    (handlePeriodChange s).reloads = s.reloads + 1 := by
  simp only [handlePeriodChange, reloadCurrentPage]
  split
  · split
    · rfl
    · split <;> rfl
  · rfl

/-- What the change handler stores as primary week: the parse of the
dropdown value in weekly mode, the first parsed field in monthly mode. -/
theorem handlePeriodChange_currentWeekId (s : AppState) :
    (handlePeriodChange s).currentWeekId =
      if s.periodType = "weekly" then jsParseInt s.selector.value
      else
        match (jsSplitComma s.selector.value).map jsParseInt with
        | x :: _ => x
        | [] => none := by
  simp only [handlePeriodChange, reloadCurrentPage]
  split
  · split
    · rfl
    · split <;> rfl
  · rfl

/-- What the change handler stores as the current group: the singleton parse
in weekly mode, all parsed fields in monthly mode. -/
theorem handlePeriodChange_currentMonthWeekIds (s : AppState) :
    (handlePeriodChange s).currentMonthWeekIds =
      if s.periodType = "weekly" then [jsParseInt s.selector.value]
      else (jsSplitComma s.selector.value).map jsParseInt := by
  simp only [handlePeriodChange, reloadCurrentPage]
  split
  · split
    · rfl
    · split <;> rfl
  · rfl

/-- What the change handler does to the slider: in weekly mode it is moved
to the reverse index of the parsed id when that id occurs in the week list,
otherwise (including every monthly selection) it is left alone. -/
theorem handlePeriodChange_slider (s : AppState) :
    (handlePeriodChange s).slider =
      if s.periodType = "weekly" then
        match weeklyFindIdx s with
        | some idx => Slider.mk s.slider.min s.slider.max (idx : Int)
        | none => s.slider
      else s.slider := by
  simp only [handlePeriodChange, reloadCurrentPage]
  by_cases hw : s.periodType = "weekly"
  · rw [if_pos hw, if_pos hw]
    cases hfi : weeklyFindIdx s with
    | none =>
      rw [weeklyFindIdx] at hfi
      rw [hfi]
    | some idx =>
      rw [weeklyFindIdx] at hfi
      have hlt : idx < s.weeksData.length :=
        (List.findIdx?_eq_some_iff_findIdx_eq.mp hfi).1
      rw [hfi]
      simp only [List.get?_eq_get hlt]
  · rw [if_neg hw, if_neg hw]

/-- A slider input event never touches the granularity. -/
theorem handleSliderChange_periodType (v : String) (s : AppState) :
    (handleSliderChange v s).periodType = s.periodType := by
  simp only [handleSliderChange, reloadCurrentPage]
  split
  · rfl
  · split <;> rfl

/-- What a valid scrub to reverse index i does: pins the selection to the
week at that index, mirrors its id into the dropdown, updates the current
label, leaves the granularity alone and fires exactly one reload. -/
theorem selectBySlider_spec (s : AppState) (i : Nat)
    (hi : i < s.weeksData.length) :
    (selectBySlider (i : Int) s).currentWeekId
        = some (s.weeksData.get ⟨i, hi⟩).week_id ∧
    (selectBySlider (i : Int) s).currentMonthWeekIds
        = [some (s.weeksData.get ⟨i, hi⟩).week_id] ∧
    (selectBySlider (i : Int) s).timelineCurrent
        = (s.weeksData.get ⟨i, hi⟩).label ∧
    (selectBySlider (i : Int) s).selector
        = s.selector.setValue (jsIntToString (s.weeksData.get ⟨i, hi⟩).week_id) ∧
    (selectBySlider (i : Int) s).slider
        = Slider.mk s.slider.min s.slider.max (i : Int) ∧
    (selectBySlider (i : Int) s).periodType = s.periodType ∧
    (selectBySlider (i : Int) s).reloads = s.reloads + 1 ∧
    (selectBySlider (i : Int) s).weeksData = s.weeksData := by
  unfold selectBySlider
  simp only [handleSliderChange, jsParseInt_jsIntToString, reloadCurrentPage]
  rw [dif_pos ⟨Int.natCast_nonneg i, by simpa using hi⟩]
  simp [Int.toNat_natCast]

/-- An option found by findIdx? satisfies the predicate at the found
index. -/
theorem findIdx?_get {α : Type} {p : α → Bool} {xs : List α} {i : Nat}
    (h : List.findIdx? p xs = some i) :
    ∃ hlt : i < xs.length, p (xs.get ⟨i, hlt⟩) = true := by
  obtain ⟨hlt, hidx⟩ := List.findIdx?_eq_some_iff_findIdx_eq.mp h
  refine ⟨hlt, ?_⟩
  have hg := @List.findIdx_getElem _ p xs (by rw [hidx]; exact hlt)
  simpa [hidx] using hg

/-- The change handler always leaves the primary week inside the current
group (weekly: the singleton of the parse; monthly: the head of the parsed
fields, which always exist because split never returns an empty list). -/
theorem handlePeriodChange_inv (s : AppState) :
    (handlePeriodChange s).currentWeekId
      ∈ (handlePeriodChange s).currentMonthWeekIds := by
  rw [handlePeriodChange_currentWeekId, handlePeriodChange_currentMonthWeekIds]
  by_cases hw : s.periodType = "weekly"
  · simp [hw]
  · rw [if_neg hw, if_neg hw]
    cases hsp : (jsSplitComma s.selector.value).map jsParseInt with
    | nil => exact absurd (List.map_eq_nil_iff.mp hsp) (jsSplitComma_ne_nil _)
    | cons a t => simp

/-- Weekly population with a non-empty week list makes a singleton
selection; with an empty list it changes no selection variable. -/
theorem populateWeekSelector_inv (s : AppState)
    (h : s.currentWeekId ∈ s.currentMonthWeekIds) :
    (populateWeekSelector s).currentWeekId
      ∈ (populateWeekSelector s).currentMonthWeekIds := by
  simp only [populateWeekSelector]
  split
  · exact h
  · simp

/-- Monthly population keeps the invariant, assuming the data-model
invariant that every listed month group is non-empty. -/
theorem populateMonthSelector_inv (s : AppState)
    (hm : ∀ m ∈ s.monthsData, m.week_ids ≠ [])
    (h : s.currentWeekId ∈ s.currentMonthWeekIds) :
    (populateMonthSelector s).currentWeekId
      ∈ (populateMonthSelector s).currentMonthWeekIds := by
  simp only [populateMonthSelector]
  split
  · exact h
  · rename_i m rest heq
    have hne : m.week_ids ≠ [] := hm m (by rw [heq]; simp)
    cases hw : m.week_ids with
    | nil => exact absurd hw hne
    | cons a t => simp [hw]

/-- A slider input either does nothing (invalid index) or makes a singleton
selection. -/
theorem handleSliderChange_cases (v : String) (s : AppState) :
    handleSliderChange v s = s ∨
      (handleSliderChange v s).currentMonthWeekIds
        = [(handleSliderChange v s).currentWeekId] := by
  simp only [handleSliderChange, reloadCurrentPage]
  split
  · exact Or.inl rfl
  · split
    · exact Or.inr (by simp)
    · exact Or.inl rfl

/-! ## Claim theorems -/

/-- C8: for every mode argument, setPeriodType leaves the timeline slider
untouched — value, min, max and the current-label text are identical before
and after the call, also when switching to monthly mode. -/
theorem C8_setPeriodType_slider_frame (t : String) (s : AppState) :
    (setPeriodType t s).slider = s.slider ∧
    (setPeriodType t s).timelineCurrent = s.timelineCurrent := by
  simp only [setPeriodType, reloadCurrentPage, populateWeekSelector,
    populateMonthSelector]
  split
  · split <;> exact ⟨rfl, rfl⟩
  · split <;> exact ⟨rfl, rfl⟩

/-- C9: with an empty Period list, initTimelineSlider is a no-op — the state
is returned unchanged, so no slider range or value is set, no labels change
and no reload is triggered. -/
theorem C9_initTimelineSlider_empty_noop (s : AppState)
    (h : s.weeksData = []) : initTimelineSlider s = s := by
  unfold initTimelineSlider
  rw [if_pos (by rw [h]; rfl)]

/-- C9 witness: the pristine page-load state has no weeks, and slider
initialisation on it changes nothing. -/
theorem C9_witness : initTimelineSlider emptyState = emptyState :=
  C9_initTimelineSlider_empty_noop emptyState rfl

/-- C10: handleSliderChange never modifies the granularity, so a valid
scrub in monthly mode leaves periodType monthly while pinning
currentMonthWeekIds to a single week. -/
theorem C10_slider_keeps_granularity (v : String) (s : AppState) (i : Nat)
    (hi : i < s.weeksData.length) :
    (handleSliderChange v s).periodType = s.periodType ∧
    (selectBySlider (i : Int) s).periodType = s.periodType ∧
    (s.periodType = "monthly" →
      (selectBySlider (i : Int) s).periodType = "monthly" ∧
      (selectBySlider (i : Int) s).currentMonthWeekIds.length = 1) := by
  obtain ⟨_, hgrp, _, _, _, hpt, _, _⟩ := selectBySlider_spec s i hi
  refine ⟨handleSliderChange_periodType v s, hpt, fun hm => ⟨?_, ?_⟩⟩
  · rw [hpt, hm]
  · rw [hgrp]
    rfl

/-- C10 witness: scrubbing to index 1 of the two-week list on the monthly
variant of the sample state. -/
theorem C10_witness :
    (handleSliderChange "1" (setPeriodType "monthly" sampleState)).periodType
        = (setPeriodType "monthly" sampleState).periodType ∧
    (selectBySlider ((1 : Nat) : Int)
        (setPeriodType "monthly" sampleState)).periodType
        = (setPeriodType "monthly" sampleState).periodType ∧
    ((setPeriodType "monthly" sampleState).periodType = "monthly" →
      (selectBySlider ((1 : Nat) : Int)
          (setPeriodType "monthly" sampleState)).periodType = "monthly" ∧
      (selectBySlider ((1 : Nat) : Int)
          (setPeriodType "monthly" sampleState)).currentMonthWeekIds.length
          = 1) :=
  C10_slider_keeps_granularity "1" (setPeriodType "monthly" sampleState) 1
    (by decide)

/-- C6: when either of the two concurrent Period Store fetches fails, the
whole load fails: the stored week and month lists, and the selection state
derived from them, are exactly as before, and exactly one user-visible
error notification fires. -/
theorem C6_load_failure_leaves_state (s : AppState)
    (weeksRes : Except Unit (List Period))
    (monthsRes : Except Unit (List MonthGroup)) (dashRes : Except Unit Unit)
    (hfail : weeksRes = Except.error () ∨ monthsRes = Except.error ()) :
    initDashboard weeksRes monthsRes dashRes s = showError s ∧
    (initDashboard weeksRes monthsRes dashRes s).weeksData = s.weeksData ∧
    (initDashboard weeksRes monthsRes dashRes s).monthsData = s.monthsData ∧
    (initDashboard weeksRes monthsRes dashRes s).selection = s.selection ∧
    (initDashboard weeksRes monthsRes dashRes s).errors = s.errors + 1 := by
  have hld : loadWeeks weeksRes monthsRes s = Except.error () := by
    rcases hfail with h | h
    · rw [h]
      cases monthsRes <;> rfl
    · rw [h]
      cases weeksRes <;> rfl
  have hmain : initDashboard weeksRes monthsRes dashRes s = showError s := by
    unfold initDashboard
    rw [hld]
  exact ⟨hmain, by rw [hmain]; rfl, by rw [hmain]; rfl, by rw [hmain]; rfl,
    by rw [hmain]; rfl⟩

/-- C6 witness: a failing month fetch on the sample state (the scenario of
the spec) leaves everything unchanged and raises one alert. -/
theorem C6_witness :
    initDashboard (Except.ok sampleWeeks) (Except.error ()) (Except.ok ())
        sampleState = showError sampleState ∧
    (initDashboard (Except.ok sampleWeeks) (Except.error ()) (Except.ok ())
        sampleState).weeksData = sampleState.weeksData ∧
    (initDashboard (Except.ok sampleWeeks) (Except.error ()) (Except.ok ())
        sampleState).monthsData = sampleState.monthsData ∧
    (initDashboard (Except.ok sampleWeeks) (Except.error ()) (Except.ok ())
        sampleState).selection = sampleState.selection ∧
    (initDashboard (Except.ok sampleWeeks) (Except.error ()) (Except.ok ())
        sampleState).errors = sampleState.errors + 1 :=
  C6_load_failure_leaves_state sampleState (Except.ok sampleWeeks)
    (Except.error ()) (Except.ok ()) (Or.inr rfl)

/-- C1 counterexample: on the populated weekly sample state, the dropdown
value abc has encoded content that fails to parse (the write matches no
option, so the element reads back the empty string, whose parse is NaN),
yet selectByDropdown does not leave the selection unchanged: the primary
week was 5 and becomes the NaN result, and the group is overwritten as
well. -/
theorem C1_counterexample :
    jsParseInt (Dropdown.setValue sampleState.selector ("abc")).value
        = none ∧
    (selectByDropdown ("abc") sampleState).currentWeekId
        ≠ sampleState.currentWeekId ∧
    (selectByDropdown ("abc") sampleState).currentMonthWeekIds
        ≠ sampleState.currentMonthWeekIds := by
  decide

/-- C1 (amended): when the dropdown's encoded value fails to parse in
weekly mode, handlePeriodChange does not leave the selection unchanged; it
overwrites the primary week with the NaN parse result and the group with
the one-element list holding it, leaves the slider alone (findIndex never
matches NaN), and still triggers one reload. -/
theorem C1_amended_overwrites (s : AppState) (hw : s.periodType = "weekly")
    (hp : jsParseInt s.selector.value = none) :
    (handlePeriodChange s).currentWeekId = none ∧
    (handlePeriodChange s).currentMonthWeekIds = [none] ∧
    (handlePeriodChange s).slider = s.slider ∧
    (handlePeriodChange s).reloads = s.reloads + 1 := by
  refine ⟨?_, ?_, ?_, handlePeriodChange_reloads s⟩
  · rw [handlePeriodChange_currentWeekId, if_pos hw, hp]
  · rw [handlePeriodChange_currentMonthWeekIds, if_pos hw, hp]
  · rw [handlePeriodChange_slider, if_pos hw]
    have hfi : weeklyFindIdx s = none := by
      unfold weeklyFindIdx
      rw [hp]
      exact List.findIdx?_eq_none_iff.mpr (fun x hx => rfl)
    rw [hfi]

/-- C1 witness: the sample state after a failed dropdown write, where the
selector reads back the empty string. -/
theorem C1_witness :
    (handlePeriodChange badValueState).currentWeekId = none ∧
    (handlePeriodChange badValueState).currentMonthWeekIds = [none] ∧
    (handlePeriodChange badValueState).slider = badValueState.slider ∧
    (handlePeriodChange badValueState).reloads = badValueState.reloads + 1 :=
  C1_amended_overwrites badValueState (by decide) (by decide)

/-- The sample state switched to monthly granularity: the dropdown now
holds one option per month group. -/
def monthlyState : AppState := setPeriodType ("monthly") sampleState

/-- C3 counterexample: scrubbing to reverse index 1 while the dropdown is
populated with month options pins the selection to week 4, but the write
of 4 to the dropdown matches no month option, so the dropdown's selected
value ends up empty instead of the claimed week id. -/
theorem C3_counterexample :
    (selectBySlider 1 monthlyState).currentWeekId = some 4 ∧
    (selectBySlider 1 monthlyState).selector.value ≠ jsIntToString 4 := by
  decide

/-- C3 (amended): a valid scrub to reverse index i pins the selection to
periods[i] (single-week group even in monthly mode), updates the slider's
current label and fires exactly one reload; the dropdown's selected value
becomes the week id provided the dropdown holds an option encoding it (as
it always does after weekly population) — otherwise the write clears the
selection instead.  Index 0 selects the most recent period. -/
theorem C3_amended (s : AppState) (i : Nat) (hi : i < s.weeksData.length)
    (hopt : ∃ o ∈ s.selector.options,
      o.value = jsIntToString (s.weeksData.get ⟨i, hi⟩).week_id) :
    (selectBySlider (i : Int) s).currentWeekId
        = some (s.weeksData.get ⟨i, hi⟩).week_id ∧
    (selectBySlider (i : Int) s).currentMonthWeekIds
        = [some (s.weeksData.get ⟨i, hi⟩).week_id] ∧
    (selectBySlider (i : Int) s).selector.value
        = jsIntToString (s.weeksData.get ⟨i, hi⟩).week_id ∧
    (selectBySlider (i : Int) s).timelineCurrent
        = (s.weeksData.get ⟨i, hi⟩).label ∧
    (selectBySlider (i : Int) s).reloads = s.reloads + 1 ∧
    (selectBySlider ((0 : Nat) : Int) s).currentWeekId
        = some ((s.weeksData.get
            ⟨0, Nat.lt_of_le_of_lt (Nat.zero_le i) hi⟩).week_id) := by
  obtain ⟨h1, h2, h3, h4, h5, h6, h7, h8⟩ := selectBySlider_spec s i hi
  refine ⟨h1, h2, ?_, h3, h7, ?_⟩
  · rw [h4]
    exact Dropdown.setValue_value hopt
  · exact (selectBySlider_spec s 0
      (Nat.lt_of_le_of_lt (Nat.zero_le i) hi)).1

/-- C3 witness: the spec's scenario — scrub to index 1 of the two-week
sample, landing on week 4 with label 2025-W50. -/
theorem C3_witness :
    (selectBySlider ((1 : Nat) : Int) sampleState).currentWeekId
        = some (sampleState.weeksData.get ⟨1, by decide⟩).week_id ∧
    (selectBySlider ((1 : Nat) : Int) sampleState).currentMonthWeekIds
        = [some (sampleState.weeksData.get ⟨1, by decide⟩).week_id] ∧
    (selectBySlider ((1 : Nat) : Int) sampleState).selector.value
        = jsIntToString (sampleState.weeksData.get ⟨1, by decide⟩).week_id ∧
    (selectBySlider ((1 : Nat) : Int) sampleState).timelineCurrent
        = (sampleState.weeksData.get ⟨1, by decide⟩).label ∧
    (selectBySlider ((1 : Nat) : Int) sampleState).reloads
        = sampleState.reloads + 1 ∧
    (selectBySlider ((0 : Nat) : Int) sampleState).currentWeekId
        = some ((sampleState.weeksData.get ⟨0, by decide⟩).week_id) :=
  C3_amended sampleState 1 (by decide) (by decide)

/-- setPeriodType never touches the slider (shared frame fact). -/
theorem setPeriodType_slider_eq (t : String) (s : AppState) :
    (setPeriodType t s).slider = s.slider := by
  simp only [setPeriodType, reloadCurrentPage, populateWeekSelector,
    populateMonthSelector]
  split
  · split <;> rfl
  · split <;> rfl

/-- The state after scrubbing the sample to index 1 and then switching
granularity back to weekly: the dropdown repopulation resets the selection
to the most recent week, the slider still sits at index 1. -/
def c4state : AppState := setPeriodType ("weekly") (selectBySlider 1 sampleState)

/-- C4 counterexample: weekly mode is active in c4state, but the week at
the slider's reverse index (week 4) is not the current week (week 5): the
claimed synchronization fails right after setGranularity(weekly). -/
theorem C4_counterexample :
    c4state.periodType = "weekly" ∧
    c4state.slider.value = 1 ∧
    (c4state.weeksData.get? c4state.slider.value.toNat).map Period.week_id
      ≠ c4state.currentWeekId := by
  decide

/-- C4 (amended): the slider-dropdown synchronization holds after the two
selection events — a valid scrub (the slider moves to i and the selection
follows) and a weekly dropdown change whose parsed id occurs in the Period
list (the slider moves to the found reverse index) — but setPeriodType
leaves the slider untouched while resetting the selection, so the
synchronization is not maintained across setGranularity(weekly). -/
theorem C4_amended (s : AppState) (i : Nat) (idx : Nat)
    (hi : i < s.weeksData.length) (hw : s.periodType = "weekly")
    (hfi : weeklyFindIdx s = some idx) :
    ((selectBySlider (i : Int) s).weeksData.get?
        ((i : Int)).toNat).map Period.week_id
      = (selectBySlider (i : Int) s).currentWeekId ∧
    (selectBySlider (i : Int) s).slider.value = (i : Int) ∧
    ((handlePeriodChange s).weeksData.get? idx).map Period.week_id
      = (handlePeriodChange s).currentWeekId ∧
    (handlePeriodChange s).slider.value = (idx : Int) ∧
    (setPeriodType ("weekly") s).slider = s.slider := by
  obtain ⟨h1, _, _, _, h5, _, _, hwk⟩ := selectBySlider_spec s i hi
  obtain ⟨hlt, hpred⟩ := findIdx?_get hfi
  have hparse : jsParseInt s.selector.value
      = some (s.weeksData.get ⟨idx, hlt⟩).week_id := by
    have := hpred
    simp only [beq_iff_eq] at this
    exact this.symm
  refine ⟨?_, ?_, ?_, ?_, setPeriodType_slider_eq ("weekly") s⟩
  · rw [hwk, h1, Int.toNat_natCast, List.get?_eq_get hi]
    rfl
  · rw [h5]
  · rw [handlePeriodChange_weeksData, handlePeriodChange_currentWeekId,
      if_pos hw, hparse, List.get?_eq_get hlt]
    rfl
  · rw [handlePeriodChange_slider, if_pos hw, hfi]

/-- C4 witness: the sample state (weekly, selection on week 5, whose
reverse index is 0) with a scrub to index 1. -/
theorem C4_witness :
    ((selectBySlider ((1 : Nat) : Int) sampleState).weeksData.get?
        (((1 : Nat) : Int)).toNat).map Period.week_id
      = (selectBySlider ((1 : Nat) : Int) sampleState).currentWeekId ∧
    (selectBySlider ((1 : Nat) : Int) sampleState).slider.value
      = ((1 : Nat) : Int) ∧
    ((handlePeriodChange sampleState).weeksData.get? 0).map Period.week_id
      = (handlePeriodChange sampleState).currentWeekId ∧
    (handlePeriodChange sampleState).slider.value = ((0 : Nat) : Int) ∧
    (setPeriodType ("weekly") sampleState).slider = sampleState.slider :=
  C4_amended sampleState 1 0 (by decide) (by decide) (by decide)

/-- C2: every selector-controller operation preserves the selection
invariant — the primary week is an element of the current group — and each
weekly-mode selection (dropdown change in weekly mode, weekly population of
a non-empty list, and any effective slider scrub) pins the group to exactly
the one-element list of the primary week.  The hypotheses are the data
model's invariants: month groups are non-empty and the invariant held
before the operation. -/
theorem C2_selection_invariant (s : AppState) (t v w : String)
    (hm : ∀ m ∈ s.monthsData, m.week_ids ≠ [])
    (hinv : s.currentWeekId ∈ s.currentMonthWeekIds) :
    ((setPeriodType t s).currentWeekId
        ∈ (setPeriodType t s).currentMonthWeekIds) ∧
    ((selectByDropdown v s).currentWeekId
        ∈ (selectByDropdown v s).currentMonthWeekIds) ∧
    ((handlePeriodChange s).currentWeekId
        ∈ (handlePeriodChange s).currentMonthWeekIds) ∧
    ((handleSliderChange w s).currentWeekId
        ∈ (handleSliderChange w s).currentMonthWeekIds) ∧
    ((populateWeekSelector s).currentWeekId
        ∈ (populateWeekSelector s).currentMonthWeekIds) ∧
    ((populateMonthSelector s).currentWeekId
        ∈ (populateMonthSelector s).currentMonthWeekIds) ∧
    (s.periodType = "weekly" →
      (selectByDropdown v s).currentMonthWeekIds
        = [(selectByDropdown v s).currentWeekId]) ∧
    (s.weeksData ≠ [] →
      (populateWeekSelector s).currentMonthWeekIds
        = [(populateWeekSelector s).currentWeekId]) ∧
    (handleSliderChange w s = s ∨
      (handleSliderChange w s).currentMonthWeekIds
        = [(handleSliderChange w s).currentWeekId]) := by
  refine ⟨?_, ?_, handlePeriodChange_inv s, ?_, populateWeekSelector_inv s hinv,
    populateMonthSelector_inv s hm hinv, ?_, ?_, handleSliderChange_cases w s⟩
  · simp only [setPeriodType, reloadCurrentPage]
    split
    · exact populateWeekSelector_inv _ hinv
    · exact populateMonthSelector_inv _ hm hinv
  · exact handlePeriodChange_inv { s with selector := s.selector.setValue v }
  · simp only [handleSliderChange, reloadCurrentPage]
    split
    · exact hinv
    · split
      · simp
      · exact hinv
  · intro hw
    show (handlePeriodChange { s with selector := s.selector.setValue v
        }).currentMonthWeekIds
      = [(handlePeriodChange { s with selector := s.selector.setValue v
        }).currentWeekId]
    rw [handlePeriodChange_currentMonthWeekIds,
      handlePeriodChange_currentWeekId]
    have hw2 : ({ s with selector := s.selector.setValue v
        } : AppState).periodType = "weekly" := hw
    rw [if_pos hw2, if_pos hw2]
  · intro hne
    simp only [populateWeekSelector]
    split
    · rename_i heq
      exact absurd heq hne
    · rfl

/-- C2 witness: the sample state, switching to monthly, choosing week 4 in
the dropdown, scrubbing to index 1. -/
theorem C2_witness :
    ((setPeriodType ("monthly") sampleState).currentWeekId
        ∈ (setPeriodType ("monthly") sampleState).currentMonthWeekIds) ∧
    ((selectByDropdown ("4") sampleState).currentWeekId
        ∈ (selectByDropdown ("4") sampleState).currentMonthWeekIds) ∧
    ((handlePeriodChange sampleState).currentWeekId
        ∈ (handlePeriodChange sampleState).currentMonthWeekIds) ∧
    ((handleSliderChange ("1") sampleState).currentWeekId
        ∈ (handleSliderChange ("1") sampleState).currentMonthWeekIds) ∧
    ((populateWeekSelector sampleState).currentWeekId
        ∈ (populateWeekSelector sampleState).currentMonthWeekIds) ∧
    ((populateMonthSelector sampleState).currentWeekId
        ∈ (populateMonthSelector sampleState).currentMonthWeekIds) ∧
    (sampleState.periodType = "weekly" →
      (selectByDropdown ("4") sampleState).currentMonthWeekIds
        = [(selectByDropdown ("4") sampleState).currentWeekId]) ∧
    (sampleState.weeksData ≠ [] →
      (populateWeekSelector sampleState).currentMonthWeekIds
        = [(populateWeekSelector sampleState).currentWeekId]) ∧
    (handleSliderChange ("1") sampleState = sampleState ∨
      (handleSliderChange ("1") sampleState).currentMonthWeekIds
        = [(handleSliderChange ("1") sampleState).currentWeekId]) :=
  C2_selection_invariant sampleState ("monthly") ("4") ("1") (by decide)
    (by decide)

/-- Monthly population on a state whose month list starts with m0: the
group becomes m0's week ids, the primary week its first id, and the
dropdown holds one comma-joined option per month with index 0 selected. -/
theorem populateMonthSelector_of_cons {s : AppState} {m0 : MonthGroup}
    {rest : List MonthGroup} (h : s.monthsData = m0 :: rest) :
    (populateMonthSelector s).currentMonthWeekIds = m0.week_ids.map some ∧
    (populateMonthSelector s).currentWeekId = m0.week_ids.head? ∧
    (populateMonthSelector s).selector = Dropdown.mk
      (s.monthsData.map (fun m => SelectOption.mk
        (jsJoinComma (m.week_ids.map jsIntToString)) m.label)) (some 0) ∧
    (populateMonthSelector s).periodType = s.periodType := by
  simp only [populateMonthSelector]
  rw [h]
  exact ⟨rfl, rfl, rfl, rfl⟩

/-- setPeriodType to monthly takes the monthly population path. -/
theorem setPeriodType_monthly (s : AppState) :
    setPeriodType ("monthly") s =
      reloadCurrentPage (populateMonthSelector
        { s with periodType := "monthly" }) := by
  simp only [setPeriodType]
  rw [if_neg (by decide)]

/-- C5: with non-empty month groups, setGranularity(monthly) defaults to
the most recent group (index 0) — the group's week ids become the current
group and its first id the primary week — and a subsequent dropdown choice
of any listed group's comma-joined week ids selects exactly that group,
with its first id as primary week. -/
theorem C5_monthly_group_selection (s : AppState) (g m0 : MonthGroup)
    (hg : g ∈ s.monthsData) (hm0 : s.monthsData.head? = some m0)
    (hall : ∀ m ∈ s.monthsData, m.week_ids ≠ []) :
    (setPeriodType ("monthly") s).currentMonthWeekIds
      = m0.week_ids.map some ∧
    (setPeriodType ("monthly") s).currentWeekId = m0.week_ids.head? ∧
    (selectByDropdown (jsJoinComma (g.week_ids.map jsIntToString))
        (setPeriodType ("monthly") s)).currentMonthWeekIds
      = g.week_ids.map some ∧
    (selectByDropdown (jsJoinComma (g.week_ids.map jsIntToString))
        (setPeriodType ("monthly") s)).currentWeekId
      = g.week_ids.head? := by
  obtain ⟨rest, hrest⟩ : ∃ rest, s.monthsData = m0 :: rest := by
    cases hms : s.monthsData with
    | nil =>
      rw [hms] at hm0
      exact absurd hm0 (by simp)
    | cons a tl =>
      rw [hms] at hm0
      simp only [List.head?_cons, Option.some_inj] at hm0
      exact ⟨tl, by rw [hm0]⟩
  have hrest2 : ({ s with periodType := "monthly" } : AppState).monthsData
      = m0 :: rest := hrest
  obtain ⟨p1, p2, p3, p4⟩ := populateMonthSelector_of_cons hrest2
  have e1 := setPeriodType_monthly s
  have hs1sel : (setPeriodType ("monthly") s).selector = Dropdown.mk
      (s.monthsData.map (fun m => SelectOption.mk
        (jsJoinComma (m.week_ids.map jsIntToString)) m.label)) (some 0) := by
    rw [e1]
    exact p3
  have hs1pt : (setPeriodType ("monthly") s).periodType = "monthly" := by
    rw [e1]
    exact p4
  have hopt : ∃ o ∈ (setPeriodType ("monthly") s).selector.options,
      o.value = jsJoinComma (g.week_ids.map jsIntToString) := by
    rw [hs1sel]
    exact ⟨SelectOption.mk (jsJoinComma (g.week_ids.map jsIntToString))
      g.label, List.mem_map_of_mem _ hg, rfl⟩
  have hval : ((setPeriodType ("monthly") s).selector.setValue
        (jsJoinComma (g.week_ids.map jsIntToString))).value
      = jsJoinComma (g.week_ids.map jsIntToString) :=
    Dropdown.setValue_value hopt
  have hgne : g.week_ids ≠ [] := hall g hg
  have hids : (jsSplitComma ((setPeriodType ("monthly") s).selector.setValue
          (jsJoinComma (g.week_ids.map jsIntToString))).value).map jsParseInt
      = g.week_ids.map some := by
    rw [hval]
    rw [jsSplitComma_jsJoinComma (g.week_ids.map jsIntToString)
      (by simpa [List.map_eq_nil_iff] using hgne)
      (fun x hx => by
        obtain ⟨id, _, hid⟩ := List.mem_map.mp hx
        rw [← hid]
        exact jsIntToString_no_comma id)]
    rw [List.map_map]
    exact List.map_congr_left (fun a _ => jsParseInt_jsIntToString a)
  have hs2pt : ({ setPeriodType ("monthly") s with
        selector := (setPeriodType ("monthly") s).selector.setValue
          (jsJoinComma (g.week_ids.map jsIntToString)) } : AppState).periodType
      ≠ "weekly" := by
    show (setPeriodType ("monthly") s).periodType ≠ "weekly"
    rw [hs1pt]
    decide
  refine ⟨by rw [e1]; exact p1, by rw [e1]; exact p2, ?_, ?_⟩
  · show (handlePeriodChange { setPeriodType ("monthly") s with
        selector := (setPeriodType ("monthly") s).selector.setValue
          (jsJoinComma (g.week_ids.map jsIntToString))
      }).currentMonthWeekIds = g.week_ids.map some
    rw [handlePeriodChange_currentMonthWeekIds, if_neg hs2pt]
    exact hids
  · show (handlePeriodChange { setPeriodType ("monthly") s with
        selector := (setPeriodType ("monthly") s).selector.setValue
          (jsJoinComma (g.week_ids.map jsIntToString))
      }).currentWeekId = g.week_ids.head?
    rw [handlePeriodChange_currentWeekId, if_neg hs2pt]
    have hm : (jsSplitComma ({ setPeriodType ("monthly") s with
          selector := (setPeriodType ("monthly") s).selector.setValue
            (jsJoinComma (g.week_ids.map jsIntToString))
        } : AppState).selector.value).map jsParseInt
        = g.week_ids.map some := hids
    rw [hm]
    cases hgw : g.week_ids with
    | nil => exact absurd hgw hgne
    | cons a tl => simp

/-- C5 witness: the spec's scenario — one month group Dec 2025 with weeks
[5, 4, 3]; the default monthly selection and the explicit dropdown choice
of that group both select [5, 4, 3] with primary week 5. -/
theorem C5_witness :
    (setPeriodType ("monthly") sampleState).currentMonthWeekIds
      = (MonthGroup.mk ("Dec 2025") [5, 4, 3]).week_ids.map some ∧
    (setPeriodType ("monthly") sampleState).currentWeekId
      = (MonthGroup.mk ("Dec 2025") [5, 4, 3]).week_ids.head? ∧
    (selectByDropdown (jsJoinComma ((MonthGroup.mk ("Dec 2025")
          [5, 4, 3]).week_ids.map jsIntToString))
        (setPeriodType ("monthly") sampleState)).currentMonthWeekIds
      = (MonthGroup.mk ("Dec 2025") [5, 4, 3]).week_ids.map some ∧
    (selectByDropdown (jsJoinComma ((MonthGroup.mk ("Dec 2025")
          [5, 4, 3]).week_ids.map jsIntToString))
        (setPeriodType ("monthly") sampleState)).currentWeekId
      = (MonthGroup.mk ("Dec 2025") [5, 4, 3]).week_ids.head? :=
  C5_monthly_group_selection sampleState
    (MonthGroup.mk ("Dec 2025") [5, 4, 3])
    (MonthGroup.mk ("Dec 2025") [5, 4, 3]) (by decide) (by decide)
    (by decide)

/-- The selection a dropdown-change event produces is determined by the
dropdown's value, the granularity, the week list and — only when the parsed
id is not found — the slider's prior position. -/
theorem handlePeriodChange_selection_congr {x y : AppState}
    (hv : y.selector.value = x.selector.value)
    (hpt : y.periodType = x.periodType)
    (hwk : y.weeksData = x.weeksData)
    (hsl : y.slider.value = (handlePeriodChange x).slider.value) :
    (handlePeriodChange y).selection = (handlePeriodChange x).selection := by
  have hfi : weeklyFindIdx y = weeklyFindIdx x := by
    unfold weeklyFindIdx
    rw [hv, hwk]
  have h1 : (handlePeriodChange y).periodType
      = (handlePeriodChange x).periodType := by
    rw [handlePeriodChange_periodType, handlePeriodChange_periodType, hpt]
  have h2 : (handlePeriodChange y).currentWeekId
      = (handlePeriodChange x).currentWeekId := by
    rw [handlePeriodChange_currentWeekId, handlePeriodChange_currentWeekId,
      hv, hpt]
  have h3 : (handlePeriodChange y).currentMonthWeekIds
      = (handlePeriodChange x).currentMonthWeekIds := by
    rw [handlePeriodChange_currentMonthWeekIds,
      handlePeriodChange_currentMonthWeekIds, hv, hpt]
  have h4 : (handlePeriodChange y).slider.value
      = (handlePeriodChange x).slider.value := by
    by_cases hw : x.periodType = "weekly"
    · rw [handlePeriodChange_slider y, hpt, hfi, if_pos hw]
      cases hfix : weeklyFindIdx x with
      | some idx => rw [handlePeriodChange_slider x, if_pos hw, hfix]
      | none => exact hsl
    · rw [handlePeriodChange_slider y, hpt, if_neg hw]
      exact hsl
  unfold AppState.selection
  rw [h1, h2, h3, h4]

/-- C7: selectByDropdown is idempotent on the SelectionState — the second
application of the same value reads back the same dropdown value over the
same options and recomputes the same granularity, primary week, group and
slider position. -/
theorem C7_selectByDropdown_idempotent (v : String) (s : AppState) :
    (selectByDropdown v (selectByDropdown v s)).selection
      = (selectByDropdown v s).selection := by
  have hAsel : (selectByDropdown v s).selector = s.selector.setValue v :=
    handlePeriodChange_selector { s with selector := s.selector.setValue v }
  apply handlePeriodChange_selection_congr
  · show ((selectByDropdown v s).selector.setValue v).value
      = (s.selector.setValue v).value
    rw [hAsel]
    rfl
  · exact handlePeriodChange_periodType
      { s with selector := s.selector.setValue v }
  · exact handlePeriodChange_weeksData
      { s with selector := s.selector.setValue v }
  · rfl

end AFKPI
